import Mathlib

/-!
Verification of the iChat recovery tool's extraction and rendering pipeline
(src/ichat_recovery_ui.py), shallowly embedded in Lean.

Modelling conventions:
- The external decoder's output (a plist-like object tree) is the inductive
  type PValue: string-keyed mappings, ordered sequences, text, byte blobs,
  date-time values, integers, booleans and None.  Byte blobs are lists of
  byte values (Nat).  Date-time values are abstract instants (Nat); the
  minimum representable instant datetime.min is pyDatetimeMin = 0, and
  strftime rendering of an instant is modelled as its decimal text, which
  is all the pipeline observes of it.
- Operations that can raise in Python return Except PyErr; PyErr records
  the Python exception class where the distinction matters (the source
  catches IndexError and TypeError but not KeyError).
- File output is modelled as an association list from paths to contents;
  a write that dies partway leaves the prefix written so far, as a closed
  Python file does.
-/

inductive PValue where
  | none  : PValue
  | bool  : Bool → PValue
  | int   : Int → PValue
  | str   : String → PValue
  | bytes : List Nat → PValue
  | time  : Nat → PValue
  | list  : List PValue → PValue
  | dict  : List (String × PValue) → PValue

inductive PyErr where
  | keyError
  | indexError
  | typeError
  | attributeError
deriving DecidableEq, Repr

/-- Python truthiness of a value, as used by the source's `if x:` tests. -/
def truthy : PValue → Bool
  | .none => false
  | .bool b => b
  | .int n => n ≠ 0
  | .str s => s ≠ ""
  | .bytes bs => bs ≠ []
  | .time _ => true
  | .list xs => !xs.isEmpty
  | .dict d => !d.isEmpty

def isDictB : PValue → Bool
  | .dict _ => true
  | _ => false

def isTimeB : PValue → Bool
  | .time _ => true
  | _ => false

/-- Lookup in a string-keyed mapping (plist mappings have unique string
keys; first binding wins). -/
def dictGet : List (String × PValue) → String → Option PValue
  | [], _ => Option.none
  | (k, v) :: rest, key => if k = key then some v else dictGet rest key

/-- Python d.get(key): None when the key is absent; AttributeError when the
receiver is not a mapping. -/
def pyGet (v : PValue) (key : String) : Except PyErr PValue :=
  match v with
  | .dict d => .ok ((dictGet d key).getD .none)
  | _ => .error .attributeError

/-- Python d.get(key, default): the default only when the key is absent. -/
def pyGetD (v : PValue) (key : String) (dflt : PValue) : Except PyErr PValue :=
  match v with
  | .dict d => .ok ((dictGet d key).getD dflt)
  | _ => .error .attributeError

-- --------------------------------------------------------------------------
-- Attachment sniffer (find_and_extract_image, get_mime_type_from_bytes)
-- --------------------------------------------------------------------------

/-- IMAGE_SIGNATURES entry for .jpg: FF D8 FF. -/
def jpgSig : List Nat := [0xff, 0xd8, 0xff]

/-- IMAGE_SIGNATURES entry for .png: the 8-byte PNG header. -/
def pngSig : List Nat := [0x89, 0x50, 0x4e, 0x47, 0x0d, 0x0a, 0x1a, 0x0a]

/-- IMAGE_SIGNATURES entry for .gif: the ASCII bytes of GIF8. -/
def gifSig : List Nat := [0x47, 0x49, 0x46, 0x38]

/-- Python bytes.find: index of the earliest occurrence of sig in blob. -/
def findSig (blob sig : List Nat) : Option Nat :=
  if sig.isPrefixOf blob then some 0
  else
    match blob with
    | [] => Option.none
    | _ :: rest => (findSig rest sig).map (· + 1)

/-- find_and_extract_image: try each registered signature in the source's
iteration order (.jpg, .png, .gif); on the first signature type found
anywhere in the blob, return the slice from its earliest occurrence to the
end of the blob. -/
def find_and_extract_image (blob : List Nat) : Option (List Nat) :=
  match findSig blob jpgSig with
  | some i => some (blob.drop i)
  | Option.none =>
    match findSig blob pngSig with
    | some i => some (blob.drop i)
    | Option.none =>
      match findSig blob gifSig with
      | some i => some (blob.drop i)
      | Option.none => Option.none

/-- get_mime_type_from_bytes: classify by leading bytes. -/
def get_mime_type_from_bytes (bs : List Nat) : String :=
  if jpgSig.isPrefixOf bs then "image/jpeg"
  else if pngSig.isPrefixOf bs then "image/png"
  else if gifSig.isPrefixOf bs then "image/gif"
  else "application/octet-stream"

-- --------------------------------------------------------------------------
-- Small Python string/byte primitives used by the renderer
-- --------------------------------------------------------------------------

/-- html.escape with its default quoting: escapes ampersand, angle brackets
and both quote characters. -/
def htmlEscapeChar (c : Char) : String :=
  if c = '&' then "&amp;"
  else if c = '<' then "&lt;"
  else if c = '>' then "&gt;"
  else if c = '"' then "&quot;"
  else if c = '\'' then "&#x27;"
  else String.mk [c]

def htmlEscape (s : String) : String :=
  (s.data.map htmlEscapeChar).foldr (· ++ ·) ""

/-- Whitespace as recognised by Python str.strip with no argument. -/
def isPySpace (c : Char) : Bool :=
  c = ' ' || c = '\t' || c = '\n' || c = '\r' || c = '\x0b' || c = '\x0c'

/-- Python str.strip (both ends). -/
def pyStrip (s : String) : String :=
  String.mk (((s.data.dropWhile isPySpace).reverse.dropWhile isPySpace).reverse)

/-- The Unicode object-replacement character standing for an inline
attachment; the source removes every occurrence from the message text. -/
def placeholderChar : Char := '￼'

/-- str.replace of the placeholder with the empty string. -/
def removePlaceholder (s : String) : String :=
  String.mk (s.data.filter (fun c => c ≠ placeholderChar))

def b64Alphabet : List Char :=
  "ABCDEFGHIJKLMNOPQRSTUVWXYZabcdefghijklmnopqrstuvwxyz0123456789+/".data

def b64Char (n : Nat) : Char := b64Alphabet.getD n '?'

/-- Standard base64 of a byte list, with padding, as base64.b64encode. -/
def b64encodeChunks : List Nat → List Char
  | [] => []
  | [a] => [b64Char (a / 4), b64Char (a % 4 * 16), '=', '=']
  | [a, b] => [b64Char (a / 4), b64Char (a % 4 * 16 + b / 16), b64Char (b % 16 * 4), '=']
  | a :: b :: c :: rest =>
      [b64Char (a / 4), b64Char (a % 4 * 16 + b / 16),
       b64Char (b % 16 * 4 + c / 64), b64Char (c % 64)] ++ b64encodeChunks rest

def b64encode (bs : List Nat) : String := String.mk (b64encodeChunks bs)

/-- sanitize_filename: every character of the illegal set becomes an
underscore (the source's regex substitutes per character). -/
def illegalFilenameChars : List Char := ['\\', '/', '*', '?', ':', '"', '<', '>', '|']

def sanitize_filename (s : String) : String :=
  String.mk (s.data.map (fun c => if illegalFilenameChars.contains c then '_' else c))

-- --------------------------------------------------------------------------
-- Session extractor (extract_messages_from_file)
-- --------------------------------------------------------------------------

/-- Python positional subscription v[i] for a non-negative index.  Plist
mappings are string-keyed, so subscribing a mapping with an integer raises
KeyError; subscribing text yields a one-character text; subscribing a byte
blob yields an integer; scalars are not subscriptable (TypeError). -/
def pyIndex (v : PValue) (i : Nat) : Except PyErr PValue :=
  match v with
  | .list xs =>
      match xs[i]? with
      | some x => .ok x
      | Option.none => .error .indexError
  | .str s =>
      match s.data[i]? with
      | some c => .ok (.str (String.mk [c]))
      | Option.none => .error .indexError
  | .bytes bs =>
      match bs[i]? with
      | some b => .ok (.int b)
      | Option.none => .error .indexError
  | .dict _ => .error .keyError
  | _ => .error .typeError

/-- The fixed navigation objects[1][2]. -/
def pyIndexChain (objects : PValue) : Except PyErr PValue :=
  match pyIndex objects 1 with
  | .error e => .error e
  | .ok a => pyIndex a 2

/-- The body of extract_messages_from_file after deserialization: navigate
objects[1][2]; a non-list there returns the empty list; the except clause
catches IndexError and TypeError only, so any other exception escapes. -/
def extractMessages (objects : PValue) : Except PyErr (List PValue) :=
  match pyIndexChain objects with
  | .ok (.list msgs) => .ok msgs
  | .ok _ => .ok []
  | .error .indexError => .ok []
  | .error .typeError => .ok []
  | .error e => .error e

/-- extract_messages_from_file including the decoder call: a decoder failure
is caught and yields the empty list. -/
def extractFromDecoded : Except Unit PValue → Except PyErr (List PValue)
  | .error _ => .ok []
  | .ok objects => extractMessages objects

-- --------------------------------------------------------------------------
-- Per-message rendering (the loop body of write_html_file)
-- --------------------------------------------------------------------------

/-- The instant used for datetime.min, the least representable instant. -/
def pyDatetimeMin : Nat := 0

/-- timestamp_obj.strftime rendering of an instant; instants are abstract,
so their formatted text is modelled as the instant's decimal numeral. -/
def strftimeTimestamp (n : Nat) : String := toString n

/-- Lines 186-189: sender_name is "Unknown" unless the Sender entry is a
mapping, in which case its ID entry is read with default "Unknown Sender". -/
def senderNameOf (d : List (String × PValue)) : PValue :=
  match dictGet d "Sender" with
  | some (.dict sd) => (dictGet sd "ID").getD (.str "Unknown Sender")
  | _ => .str "Unknown"

/-- Lines 192-195: the formatted timestamp, or the sentinel when the Time
entry is absent or not a date-time value. -/
def timeStrOf (d : List (String × PValue)) : String :=
  match dictGet d "Time" with
  | some (.time n) => strftimeTimestamp n
  | _ => "No Timestamp"

/-- content_obj.get of NSString with default empty text: present non-text
values raise (TypeError for a byte blob under str.replace, otherwise
AttributeError). -/
def getNSStringText (cd : List (String × PValue)) : Except PyErr String :=
  match dictGet cd "NSString" with
  | Option.none => .ok ""
  | some (.str s) => .ok s
  | some (.bytes _) => .error .typeError
  | some _ => .error .attributeError

/-- Lines 224-225: attr.get chain NSAttachment, NSFileWrapper,
NSFileWrapperData with mapping defaults, then a final plain get of NS.data.
A default only substitutes for an absent key; a present non-mapping value
is the receiver of the next get and raises AttributeError. -/
def attrChain (attr : PValue) : Except PyErr PValue :=
  match pyGetD attr "NSAttachment" (.dict []) with
  | .error e => .error e
  | .ok a =>
    match pyGetD a "NSFileWrapper" (.dict []) with
    | .error e => .error e
    | .ok b =>
      match pyGetD b "NSFileWrapperData" (.dict []) with
      | .error e => .error e
      | .ok c => pyGet c "NS.data"

/-- One iteration of the attribute loop: the text written by it, and the
exception aborting it, if any. -/
def renderAttr (attr : PValue) : String × Option PyErr :=
  match attrChain attr with
  | .error e => ("", some e)
  | .ok dataBlob =>
    match dataBlob with
    | .bytes bs =>
      if !bs.isEmpty then
        match find_and_extract_image bs with
        | some img =>
            ("<img src=\"data:" ++ get_mime_type_from_bytes img ++ ";base64,"
               ++ b64encode img ++ "\">", Option.none)
        | Option.none => ("", Option.none)
      else ("", Option.none)
    | _ => ("", Option.none)

def renderAttrs : List PValue → String × Option PyErr
  | [] => ("", Option.none)
  | a :: rest =>
    match renderAttr a with
    | (s, some e) => (s, some e)
    | (s, Option.none) =>
      match renderAttrs rest with
      | (t, e) => (s ++ t, e)

/-- Lines 203-233: the MessageText block.  A falsy content object writes
nothing; a truthy non-mapping raises at its first get; otherwise the text
paragraph (if non-blank after stripping) and then the attachment images. -/
def renderContent (contentObj : Option PValue) : String × Option PyErr :=
  let co := contentObj.getD .none
  if truthy co then
    match co with
    | .dict cd =>
      match getNSStringText cd with
      | .error e => ("", some e)
      | .ok text0 =>
        let text := removePlaceholder text0
        let pOut := if (pyStrip text).isEmpty then "" else "<p>" ++ htmlEscape text ++ "</p>"
        let attributes := (dictGet cd "NSAttributes").getD (.list [])
        let attributesList : List PValue :=
          match attributes with
          | .dict ad => [.dict ad]
          | .list l => l
          | _ => []
        match renderAttrs attributesList with
        | (aOut, e) => (pOut ++ aOut, e)
    | _ => ("", some .attributeError)
  else ("", Option.none)

/-- Lines 184-235, one message: the text written for it and, when an
exception interrupts the iteration, the exception.  A record that is not a
mapping raises at msg.get before anything is written; a non-text sender
name raises at html.escape after the opening div was written. -/
def renderMessage (msg : PValue) : String × Option PyErr :=
  match msg with
  | .dict d =>
    match senderNameOf d with
    | .str s =>
      match renderContent (dictGet d "MessageText") with
      | (c, some e) =>
          ("<div class=\"message\">" ++ ("<div class=\"header\"><span class=\"sender\">"
             ++ htmlEscape s ++ "</span> - " ++ timeStrOf d ++ "</div>"
             ++ "<div class=\"content\">" ++ c), some e)
      | (c, Option.none) =>
          ("<div class=\"message\">" ++ ("<div class=\"header\"><span class=\"sender\">"
             ++ htmlEscape s ++ "</span> - " ++ timeStrOf d ++ "</div>"
             ++ "<div class=\"content\">" ++ (c ++ "</div></div>")), Option.none)
    | _ => ("<div class=\"message\">", some .attributeError)
  | _ => ("", some .attributeError)

/-- The message loop: text written before the first exception, if any. -/
def renderBody : List PValue → String × Option PyErr
  | [] => ("", Option.none)
  | m :: rest =>
    match renderMessage m with
    | (s, some e) => (s, some e)
    | (s, Option.none) =>
      match renderBody rest with
      | (t, e) => (s ++ t, e)

-- --------------------------------------------------------------------------
-- Whole-document rendering and the filesystem model (write_html_file)
-- --------------------------------------------------------------------------

/-- The style block of the document preamble (the doubled braces of the
source's f-string render as single braces). -/
def cssStyle : String :=
  "                    body \x7b font-family: -apple-system, BlinkMacSystemFont, \"Segoe UI\", Roboto, \"Helvetica Neue\", Arial, sans-serif; margin: 0; padding: 20px; background-color: #f9f9f9; \x7d\n"
  ++ "                    .container \x7b max-width: 800px; margin: auto; background-color: #fff; border: 1px solid #ddd; border-radius: 8px; overflow: hidden; \x7d\n"
  ++ "                    .message \x7b padding: 10px 20px; border-bottom: 1px solid #eee; \x7d\n"
  ++ "                    .message:last-child \x7b border-bottom: none; \x7d\n"
  ++ "                    .header \x7b font-size: 0.8em; color: #555; \x7d\n"
  ++ "                    .sender \x7b font-weight: bold; \x7d\n"
  ++ "                    .content \x7b margin-top: 5px; word-wrap: break-word; \x7d\n"
  ++ "                    p \x7b white-space: pre-wrap; margin: 0.5em 0 0 0; \x7d\n"
  ++ "                    p:first-child \x7b margin-top: 0; \x7d\n"
  ++ "                    p:empty \x7b display: none; \x7d\n"
  ++ "                    .content img \x7b max-width: 400px; max-height: 400px; border-radius: 6px; margin-top: 5px; display: block; \x7d\n"

/-- The document preamble written before the message loop, with the
participant name escaped into the title and heading. -/
def htmlHeader (username : String) : String :=
  "\n            <!DOCTYPE html>\n            <html>\n            <head>\n                <title>Chat with "
  ++ htmlEscape username
  ++ "</title>\n                <meta charset=\"utf-8\">\n                <style>\n"
  ++ cssStyle
  ++ "                </style>\n            </head>\n            <body>\n                <div class=\"container\">\n                <h1>Chat with "
  ++ htmlEscape username
  ++ "</h1>\n            "

/-- The footer written after the message loop. -/
def htmlFooter : String :=
  "\n                </div>\n            </body>\n            </html>\n            "

/-- The output directory contents: an association of paths to file text. -/
abbrev FS := List (String × String)

/-- Opening a path for writing and closing it with the given content:
truncates any previous file at that path. -/
def fsSet (fs : FS) (path content : String) : FS :=
  (path, content) :: fs.filter (fun p => p.1 ≠ path)

def fsGet (fs : FS) (path : String) : Option String :=
  (fs.find? (fun p => p.1 == path)).map (fun p => p.2)

/-- write_html_file: open the output path, write preamble, message blocks
and footer.  An exception during the loop is caught and logged after the
with-block has closed the file, so the prefix written before the failure
remains on disk and the caller continues normally. -/
def writeHtmlFile (username : String) (msgs : List PValue) (outputDir : String)
    (fs : FS) : FS :=
  let savePath := outputDir ++ "/" ++ sanitize_filename username ++ ".html"
  match renderBody msgs with
  | (body, Option.none) => fsSet fs savePath (htmlHeader username ++ body ++ htmlFooter)
  | (body, some _) => fsSet fs savePath (htmlHeader username ++ body)

-- --------------------------------------------------------------------------
-- Sorting (start_processing, lines 459-463)
-- --------------------------------------------------------------------------

/-- The sort key lambda m.get of Time or-else datetime.min: the sentinel
substitutes only for a falsy value; a non-mapping record raises. -/
def sortKeyE (m : PValue) : Except PyErr PValue :=
  match m with
  | .dict d =>
      let t := (dictGet d "Time").getD .none
      .ok (if truthy t then t else .time pyDatetimeMin)
  | _ => .error .attributeError

/-- Python comparison a < b between sort keys: date-times compare by
instant; integers and text compare among themselves; mixed operand kinds
raise TypeError (sequence and mapping keys do not arise as sort keys in
the theorems below and are conservatively folded into the error case). -/
def pyLtB : PValue → PValue → Except PyErr Bool
  | .time a, .time b => .ok (decide (a < b))
  | .int a, .int b => .ok (decide (a < b))
  | .str a, .str b => .ok (decide (a < b))
  | _, _ => .error .typeError

/-- Insert into a sorted list, after any element it does not strictly
precede; the comparison may raise. -/
def insertE (cmpLt : α → α → Except PyErr Bool) (x : α) :
    List α → Except PyErr (List α)
  | [] => .ok [x]
  | y :: ys =>
    match cmpLt x y with
    | .error e => .error e
    | .ok true => .ok (x :: y :: ys)
    | .ok false =>
      match insertE cmpLt x ys with
      | .error e => .error e
      | .ok rest => .ok (y :: rest)

def isortAuxE (cmpLt : α → α → Except PyErr Bool) :
    List α → List α → Except PyErr (List α)
  | acc, [] => .ok acc
  | acc, x :: xs =>
    match insertE cmpLt x acc with
    | .error e => .error e
    | .ok acc2 => isortAuxE cmpLt acc2 xs

/-- A stable sort under a fallible comparison.  On a total strict order the
stable sorted permutation is unique, so this agrees extensionally with the
source's list.sort. -/
def isortE (cmpLt : α → α → Except PyErr Bool) (l : List α) :
    Except PyErr (List α) :=
  isortAuxE cmpLt [] l

/-- list.sort with key computes every key first, in list order. -/
def mapKeysE : List PValue → Except PyErr (List (PValue × PValue))
  | [] => .ok []
  | m :: ms =>
    match sortKeyE m with
    | .error e => .error e
    | .ok k =>
      match mapKeysE ms with
      | .error e => .error e
      | .ok rest => .ok ((m, k) :: rest)

/-- The guarded sort of start_processing: on any exception the handler logs
a warning and the concatenated order is kept (a failing key computation
precedes any reordering, and in the failing comparisons exercised below the
exception is raised before any element has moved). -/
def pySortMessages (msgs : List PValue) : List PValue :=
  match mapKeysE msgs with
  | .error _ => msgs
  | .ok keyed =>
    match isortE (fun a b => pyLtB a.2 b.2) keyed with
    | .error _ => msgs
    | .ok sorted => sorted.map Prod.fst

-- --------------------------------------------------------------------------
-- Per-participant processing (start_processing, lines 446-466)
-- --------------------------------------------------------------------------

/-- The body of the per-user loop: concatenate every file's extracted
messages in file order; with no messages the user is skipped and nothing is
written; otherwise sort and render one document. -/
def processUser (username : String) (fileMessages : List (List PValue))
    (outputDir : String) (fs : FS) : FS :=
  let allMessages := fileMessages.foldl (fun acc l => acc ++ l) []
  if allMessages.isEmpty then fs
  else writeHtmlFile username (pySortMessages allMessages) outputDir fs

-- --------------------------------------------------------------------------
-- Helper lemmas
-- --------------------------------------------------------------------------

theorem findSig_isPrefix {sig : List Nat} :
    ∀ (blob : List Nat) {i : Nat}, findSig blob sig = some i →
      sig.isPrefixOf (blob.drop i) = true := by
  intro blob
  induction blob with
  | nil =>
    intro i h
    rw [findSig] at h
    split at h
    · cases h; simpa using ‹sig.isPrefixOf [] = true›
    · simp at h
  | cons x rest ih =>
    intro i h
    rw [findSig] at h
    split at h
    · cases h; simpa using ‹sig.isPrefixOf (x :: rest) = true›
    · cases hr : findSig rest sig with
      | none => rw [hr] at h; simp at h
      | some j =>
        rw [hr] at h
        simp only [Option.map_some'] at h
        cases h
        simpa using ih hr

theorem findSig_least {sig : List Nat} :
    ∀ (blob : List Nat) {i : Nat}, findSig blob sig = some i →
      ∀ j, j < i → sig.isPrefixOf (blob.drop j) = false := by
  intro blob
  induction blob with
  | nil =>
    intro i h j hj
    rw [findSig] at h
    split at h
    · cases h; omega
    · simp at h
  | cons x rest ih =>
    intro i h j hj
    rw [findSig] at h
    split at h
    · cases h; omega
    · cases hr : findSig rest sig with
      | none => rw [hr] at h; simp at h
      | some k =>
        rw [hr] at h
        simp only [Option.map_some'] at h
        cases h
        cases j with
        | zero =>
          apply Bool.eq_false_iff.mpr
          simpa using ‹¬ sig.isPrefixOf (x :: rest) = true›
        | succ j2 => simpa using ih hr j2 (by omega)

theorem png_not_jpg {l : List Nat} (h : pngSig.isPrefixOf l = true) :
    jpgSig.isPrefixOf l = false := by
  cases l with
  | nil => simp [pngSig] at h
  | cons a t =>
    simp [pngSig, List.isPrefixOf] at h
    simp only [jpgSig, List.isPrefixOf]
    simp
    intro ha
    omega

theorem gif_not_jpg {l : List Nat} (h : gifSig.isPrefixOf l = true) :
    jpgSig.isPrefixOf l = false := by
  cases l with
  | nil => simp [gifSig] at h
  | cons a t =>
    simp [gifSig, List.isPrefixOf] at h
    simp only [jpgSig, List.isPrefixOf]
    simp
    intro ha
    omega

theorem gif_not_png {l : List Nat} (h : gifSig.isPrefixOf l = true) :
    pngSig.isPrefixOf l = false := by
  cases l with
  | nil => simp [gifSig] at h
  | cons a t =>
    simp [gifSig, List.isPrefixOf] at h
    simp only [pngSig, List.isPrefixOf]
    simp
    intro ha
    omega

-- --------------------------------------------------------------------------
-- C2: attachment sniffer
-- --------------------------------------------------------------------------

/-- C2, counterexample.  The claim says the sniffer returns the sub-blob at
the EARLIEST occurrence of ANY registered signature.  In a blob holding the
GIF signature at offset 0 followed by the JPEG signature at offset 4, the
source instead returns the slice at the JPEG signature, because the
signature dictionary is probed one signature type at a time in iteration
order (.jpg first), not by earliest position overall. -/
theorem C2_counterexample :
    findSig (gifSig ++ jpgSig) gifSig = some 0 ∧
    findSig (gifSig ++ jpgSig) jpgSig = some 4 ∧
    find_and_extract_image (gifSig ++ jpgSig) = some jpgSig ∧
    get_mime_type_from_bytes jpgSig = "image/jpeg" ∧
    some jpgSig ≠ some ((gifSig ++ jpgSig).drop 0) := by
  refine ⟨by decide, by decide, by decide, by decide, by decide⟩

/-- C2, amended: the sniffer probes the registered signatures in a fixed
priority order (JPEG, then PNG, then GIF); it returns the sub-blob running
from the earliest occurrence of the highest-priority signature that occurs
anywhere in the blob to the end of the blob, and the returned bytes start
with that signature, whose mime type the classifier assigns; if no
registered signature occurs anywhere, it returns none. -/
theorem C2_theorem (blob : List Nat) :
    (find_and_extract_image blob = Option.none ↔
       findSig blob jpgSig = Option.none ∧ findSig blob pngSig = Option.none ∧
         findSig blob gifSig = Option.none) ∧
    (∀ i, findSig blob jpgSig = some i →
       find_and_extract_image blob = some (blob.drop i) ∧
       jpgSig.isPrefixOf (blob.drop i) = true ∧
       (∀ j, j < i → jpgSig.isPrefixOf (blob.drop j) = false) ∧
       get_mime_type_from_bytes (blob.drop i) = "image/jpeg") ∧
    (findSig blob jpgSig = Option.none → ∀ i, findSig blob pngSig = some i →
       find_and_extract_image blob = some (blob.drop i) ∧
       pngSig.isPrefixOf (blob.drop i) = true ∧
       (∀ j, j < i → pngSig.isPrefixOf (blob.drop j) = false) ∧
       get_mime_type_from_bytes (blob.drop i) = "image/png") ∧
    (findSig blob jpgSig = Option.none → findSig blob pngSig = Option.none →
       ∀ i, findSig blob gifSig = some i →
       find_and_extract_image blob = some (blob.drop i) ∧
       gifSig.isPrefixOf (blob.drop i) = true ∧
       (∀ j, j < i → gifSig.isPrefixOf (blob.drop j) = false) ∧
       get_mime_type_from_bytes (blob.drop i) = "image/gif") := by
  refine ⟨?_, ?_, ?_, ?_⟩
  · unfold find_and_extract_image
    cases h1 : findSig blob jpgSig with
    | some i => simp [h1]
    | none =>
      cases h2 : findSig blob pngSig with
      | some i => simp [h2]
      | none =>
        cases h3 : findSig blob gifSig with
        | some i => simp [h3]
        | none => simp [h3]
  · intro i h1
    have hp := findSig_isPrefix blob h1
    refine ⟨by unfold find_and_extract_image; rw [h1], hp, fun j hj => findSig_least blob h1 j hj, ?_⟩
    simp [get_mime_type_from_bytes, hp]
  · intro h1 i h2
    have hp := findSig_isPrefix blob h2
    refine ⟨by unfold find_and_extract_image; rw [h1, h2], hp, fun j hj => findSig_least blob h2 j hj, ?_⟩
    simp [get_mime_type_from_bytes, png_not_jpg hp, hp]
  · intro h1 h2 i h3
    have hp := findSig_isPrefix blob h3
    refine ⟨by unfold find_and_extract_image; rw [h1, h2, h3], hp, fun j hj => findSig_least blob h3 j hj, ?_⟩
    simp [get_mime_type_from_bytes, gif_not_jpg hp, gif_not_png hp, hp]

/-- C2, witness: the amended theorem applied to the PNG header itself. -/
theorem C2_witness :
    find_and_extract_image pngSig = some (pngSig.drop 0) ∧
    pngSig.isPrefixOf (pngSig.drop 0) = true ∧
    (∀ j, j < 0 → pngSig.isPrefixOf (pngSig.drop j) = false) ∧
    get_mime_type_from_bytes (pngSig.drop 0) = "image/png" :=
  (C2_theorem pngSig).2.2.1 (by decide) 0 (by decide)

-- --------------------------------------------------------------------------
-- C1: sender sentinel
-- --------------------------------------------------------------------------

/-- The block rendered for a mapping record with no Sender, Time or
MessageText entry. -/
def emptyContentBlock : String :=
  "<div class=\"message\"><div class=\"header\"><span class=\"sender\">Unknown</span> - No Timestamp</div><div class=\"content\"></div></div>"

/-- C1, counterexample.  The claim says an absent Sender entry, and a
present non-mapping Sender entry, both normalize to the sentinel text
"Unknown Sender" and that this is what the renderer emits.  The source
instead leaves sender_name at its initial value "Unknown" in both cases
(line 187); "Unknown Sender" is only the default for a Sender mapping
lacking an ID entry (line 189).  The rendered block for a record with no
Sender entry accordingly carries "Unknown". -/
theorem C1_counterexample :
    senderNameOf [] = .str "Unknown" ∧
    senderNameOf [("Sender", PValue.str "someone")] = .str "Unknown" ∧
    "Unknown" ≠ "Unknown Sender" ∧
    renderMessage (.dict []) = (emptyContentBlock, Option.none) := by
  refine ⟨rfl, rfl, by decide, rfl⟩

/-- C1, amended: an absent Sender entry and a present non-mapping Sender
entry both yield the sender text "Unknown" (not "Unknown Sender"); the
text "Unknown Sender" appears exactly when Sender is a mapping with no ID
entry; and the renderer emits the html-escaped sender text inside the
message header, so those records render with "Unknown". -/
theorem C1_theorem :
    (∀ d, dictGet d "Sender" = Option.none → senderNameOf d = .str "Unknown") ∧
    (∀ d v, dictGet d "Sender" = some v → isDictB v = false →
       senderNameOf d = .str "Unknown") ∧
    (∀ d sd, dictGet d "Sender" = some (.dict sd) → dictGet sd "ID" = Option.none →
       senderNameOf d = .str "Unknown Sender") ∧
    (∀ d s, senderNameOf d = .str s →
       ∃ rest, (renderMessage (.dict d)).1 =
         "<div class=\"message\">" ++ ("<div class=\"header\"><span class=\"sender\">"
           ++ htmlEscape s ++ "</span> - " ++ timeStrOf d ++ "</div>"
           ++ "<div class=\"content\">" ++ rest)) ∧
    htmlEscape "Unknown" = "Unknown" := by
  refine ⟨?_, ?_, ?_, ?_, by decide⟩
  · intro d h
    unfold senderNameOf
    rw [h]
  · intro d v h hv
    unfold senderNameOf
    rw [h]
    cases v <;> first | rfl | (simp [isDictB] at hv)
  · intro d sd h hid
    unfold senderNameOf
    rw [h]
    change (dictGet sd "ID").getD (PValue.str "Unknown Sender") = PValue.str "Unknown Sender"
    rw [hid]
    rfl
  · intro d s h
    cases hc : renderContent (dictGet d "MessageText") with
    | mk c oe =>
      cases oe with
      | none =>
        refine ⟨c ++ "</div></div>", ?_⟩
        simp only [renderMessage, h, hc]
      | some e =>
        refine ⟨c, ?_⟩
        simp only [renderMessage, h, hc]

/-- C1, witness: the amended theorem applied to a record with no Sender
entry, and to its rendered block. -/
theorem C1_witness :
    senderNameOf [("Time", PValue.time 7)] = .str "Unknown" ∧
    ∃ rest, (renderMessage (.dict [("Time", PValue.time 7)])).1 =
      "<div class=\"message\">" ++ ("<div class=\"header\"><span class=\"sender\">"
        ++ htmlEscape "Unknown" ++ "</span> - " ++ timeStrOf [("Time", PValue.time 7)] ++ "</div>"
        ++ "<div class=\"content\">" ++ rest) :=
  ⟨C1_theorem.1 [("Time", PValue.time 7)] rfl,
   C1_theorem.2.2.2.1 [("Time", PValue.time 7)] "Unknown"
     (C1_theorem.1 [("Time", PValue.time 7)] rfl)⟩

-- --------------------------------------------------------------------------
-- C3: totality of normalization
-- --------------------------------------------------------------------------

/-- C3, counterexample.  The claim says normalization never raises for any
record variant.  A record that is an ordered sequence, or plain text,
raises AttributeError at the very first attribute access (msg.get of
Sender), aborting the rendering loop. -/
theorem C3_counterexample :
    renderMessage (PValue.str "hello") = ("", some PyErr.attributeError) ∧
    renderMessage (PValue.list [PValue.dict []]) = ("", some PyErr.attributeError) :=
  ⟨rfl, rfl⟩

/-- C3, amended: normalization is not total.  A record whose runtime
variant is not a mapping raises AttributeError (the renderer's outer
handler catches it, truncating the document).  For mapping records missing
the Sender, Time and MessageText entries it does degrade to the defaults:
sender text "Unknown", the "No Timestamp" sentinel, empty text and no
attachments, rendered as an empty content block. -/
theorem C3_theorem :
    (∀ msg : PValue, isDictB msg = false →
       renderMessage msg = ("", some PyErr.attributeError)) ∧
    (∀ d, dictGet d "Sender" = Option.none → dictGet d "Time" = Option.none →
       dictGet d "MessageText" = Option.none →
       renderMessage (.dict d) = (emptyContentBlock, Option.none)) := by
  constructor
  · intro msg h
    cases msg <;> first | rfl | (simp [isDictB] at h)
  · intro d hs ht hm
    simp only [renderMessage, senderNameOf, timeStrOf, hs, ht, hm]
    rfl

/-- C3, witness: the amended theorem applied to a date-time record and to
the empty mapping record. -/
theorem C3_witness :
    renderMessage (PValue.time 3) = ("", some PyErr.attributeError) ∧
    renderMessage (.dict []) = (emptyContentBlock, Option.none) :=
  ⟨C3_theorem.1 (PValue.time 3) rfl, C3_theorem.2 [] rfl rfl rfl⟩

-- --------------------------------------------------------------------------
-- C5: attachment key chain
-- --------------------------------------------------------------------------

/-- The configurations in which the attachment chain's receivers are not
all mappings: the attribute itself, or a PRESENT value at one of the three
intermediate keys, is not a mapping (an absent key contributes the mapping
default and is no break). -/
def chainTypeBreak (attr : PValue) : Bool :=
  match attr with
  | .dict d =>
    match (dictGet d "NSAttachment").getD (.dict []) with
    | .dict a =>
      match (dictGet a "NSFileWrapper").getD (.dict []) with
      | .dict b =>
        match (dictGet b "NSFileWrapperData").getD (.dict []) with
        | .dict _ => false
        | _ => true
      | _ => true
    | _ => true
  | _ => true

/-- C5, counterexample.  The claim says a wrong-typed (non-mapping) value
at an intermediate key of the chain silently yields no attachment and
never raises.  A present text value under NSAttachment makes the next get
raise AttributeError, aborting the attribute loop. -/
theorem C5_counterexample :
    attrChain (.dict [("NSAttachment", PValue.str "meta")]) = .error PyErr.attributeError ∧
    renderAttr (.dict [("NSAttachment", PValue.str "meta")]) = ("", some PyErr.attributeError) :=
  ⟨rfl, rfl⟩

/-- C5, amended: a missing key at any step of the chain silently yields no
attachment (the mapping default keeps the walk alive and NS.data resolves
to None); but the chain raises exactly when the attribute or a present
intermediate value is not a mapping, and the only exception kind raised is
AttributeError. -/
theorem C5_theorem :
    (∀ attr : PValue, (∃ v, attrChain attr = .ok v) ↔ chainTypeBreak attr = false) ∧
    (∀ d, dictGet d "NSAttachment" = Option.none → attrChain (.dict d) = .ok .none) ∧
    (∀ attr e, attrChain attr = .error e → e = PyErr.attributeError) := by
  refine ⟨?_, ?_, ?_⟩
  · intro attr
    cases attr <;> simp [attrChain, chainTypeBreak, pyGetD, pyGet]
    case dict d =>
      cases h1 : (dictGet d "NSAttachment").getD (.dict []) <;> simp [h1]
      case dict a =>
        cases h2 : (dictGet a "NSFileWrapper").getD (.dict []) <;> simp [h2]
        case dict b =>
          cases h3 : (dictGet b "NSFileWrapperData").getD (.dict []) <;> simp [h3]
  · intro d h
    unfold attrChain
    simp [pyGetD, pyGet, h]
    rfl
  · intro attr e h
    cases attr <;> simp [attrChain, pyGetD, pyGet] at h <;> try exact h.symm
    case dict d =>
      cases h1 : (dictGet d "NSAttachment").getD (.dict []) <;> rw [h1] at h <;>
          simp at h <;> try exact h.symm
      case dict a =>
        cases h2 : (dictGet a "NSFileWrapper").getD (.dict []) <;> rw [h2] at h <;>
            simp at h <;> try exact h.symm
        case dict b =>
          cases h3 : (dictGet b "NSFileWrapperData").getD (.dict []) <;> rw [h3] at h <;>
              simp at h <;> try exact h.symm

/-- C5, witness: the amended theorem applied to the empty attribute
mapping, whose chain resolves silently to no attachment. -/
theorem C5_witness : attrChain (.dict []) = .ok .none :=
  C5_theorem.2.1 [] rfl

-- --------------------------------------------------------------------------
-- C4: session extraction containment
-- --------------------------------------------------------------------------

/-- pyIndex raises only KeyError, IndexError or TypeError, never
AttributeError. -/
theorem pyIndex_no_attrErr {v : PValue} {i : Nat}
    (h : pyIndex v i = .error PyErr.attributeError) : False := by
  cases v with
  | list xs =>
    simp only [pyIndex] at h
    cases hx : xs[i]? <;> rw [hx] at h <;> simp at h
  | str s =>
    simp only [pyIndex] at h
    cases hx : s.data[i]? <;> rw [hx] at h <;> simp at h
  | bytes bs =>
    simp only [pyIndex] at h
    cases hx : bs[i]? <;> rw [hx] at h <;> simp at h
  | dict d => simp [pyIndex] at h
  | none => simp [pyIndex] at h
  | bool b => simp [pyIndex] at h
  | int n => simp [pyIndex] at h
  | time n => simp [pyIndex] at h

/-- C4, counterexample.  The claim says a navigation failure of any shape
is contained — in particular a mapping at the top level, whose positional
lookup fails with a key error, yields an empty sequence.  The source's
except clause names only IndexError and TypeError, so the KeyError raised
by subscribing a mapping escapes extract_messages_from_file uncaught. -/
theorem C4_counterexample :
    extractFromDecoded (.ok (.dict [])) = .error PyErr.keyError ∧
    extractFromDecoded (.ok (.dict [("messages", PValue.list [])])) = .error PyErr.keyError :=
  ⟨rfl, rfl⟩

/-- C4, amended: decoder failure and navigation failures raising
IndexError or TypeError (short sequences, scalars, text, byte blobs), as
well as a non-sequence at the final position, are all contained and yield
an empty sequence; but a mapping encountered at either positional step
raises KeyError, which the except clause does not catch, and KeyError is
the only exception that escapes. -/
theorem C4_theorem :
    (extractFromDecoded (.error ()) = .ok []) ∧
    (∀ t : PValue, isDictB t = false →
       (∀ v, pyIndex t 1 = .ok v → isDictB v = false) →
       ∃ msgs, extractMessages t = .ok msgs) ∧
    (∀ t : PValue, ∀ e, extractMessages t = .error e → e = PyErr.keyError) := by
  refine ⟨rfl, ?_, ?_⟩
  · intro t h1 h2
    cases t with
    | none => exact ⟨[], rfl⟩
    | bool b => exact ⟨[], rfl⟩
    | int n => exact ⟨[], rfl⟩
    | time n => exact ⟨[], rfl⟩
    | dict d => simp [isDictB] at h1
    | str s =>
      cases hc : s.data[1]? with
      | none => exact ⟨[], by simp [extractMessages, pyIndexChain, pyIndex, hc]⟩
      | some c => exact ⟨[], by simp [extractMessages, pyIndexChain, pyIndex, hc]⟩
    | bytes bs =>
      cases hb : bs[1]? with
      | none => exact ⟨[], by simp [extractMessages, pyIndexChain, pyIndex, hb]⟩
      | some b => exact ⟨[], by simp [extractMessages, pyIndexChain, pyIndex, hb]⟩
    | list xs =>
      cases hx : xs[1]? with
      | none => exact ⟨[], by simp [extractMessages, pyIndexChain, pyIndex, hx]⟩
      | some v =>
        have hv : isDictB v = false := h2 v (by simp [pyIndex, hx])
        cases v with
        | dict d2 => simp [isDictB] at hv
        | none => exact ⟨[], by simp [extractMessages, pyIndexChain, pyIndex, hx]⟩
        | bool b => exact ⟨[], by simp [extractMessages, pyIndexChain, pyIndex, hx]⟩
        | int n => exact ⟨[], by simp [extractMessages, pyIndexChain, pyIndex, hx]⟩
        | time n => exact ⟨[], by simp [extractMessages, pyIndexChain, pyIndex, hx]⟩
        | str s2 =>
          cases hc : s2.data[2]? with
          | none => exact ⟨[], by simp [extractMessages, pyIndexChain, pyIndex, hx, hc]⟩
          | some c => exact ⟨[], by simp [extractMessages, pyIndexChain, pyIndex, hx, hc]⟩
        | bytes bs2 =>
          cases hb : bs2[2]? with
          | none => exact ⟨[], by simp [extractMessages, pyIndexChain, pyIndex, hx, hb]⟩
          | some b => exact ⟨[], by simp [extractMessages, pyIndexChain, pyIndex, hx, hb]⟩
        | list ys =>
          cases hy : ys[2]? with
          | none => exact ⟨[], by simp [extractMessages, pyIndexChain, pyIndex, hx, hy]⟩
          | some w =>
            cases w with
            | list msgs => exact ⟨msgs, by simp [extractMessages, pyIndexChain, pyIndex, hx, hy]⟩
            | none => exact ⟨[], by simp [extractMessages, pyIndexChain, pyIndex, hx, hy]⟩
            | bool b => exact ⟨[], by simp [extractMessages, pyIndexChain, pyIndex, hx, hy]⟩
            | int n => exact ⟨[], by simp [extractMessages, pyIndexChain, pyIndex, hx, hy]⟩
            | time n => exact ⟨[], by simp [extractMessages, pyIndexChain, pyIndex, hx, hy]⟩
            | str s2 => exact ⟨[], by simp [extractMessages, pyIndexChain, pyIndex, hx, hy]⟩
            | bytes bs2 => exact ⟨[], by simp [extractMessages, pyIndexChain, pyIndex, hx, hy]⟩
            | dict d2 => exact ⟨[], by simp [extractMessages, pyIndexChain, pyIndex, hx, hy]⟩
  · intro t e h
    unfold extractMessages at h
    cases hch : pyIndexChain t with
    | ok v => rw [hch] at h; cases v <;> simp at h
    | error e2 =>
      rw [hch] at h
      cases e2 with
      | indexError => simp at h
      | typeError => simp at h
      | keyError => simpa using h.symm
      | attributeError =>
        exfalso
        unfold pyIndexChain at hch
        cases h1 : pyIndex t 1 with
        | error e1 =>
          rw [h1] at hch
          simp at hch
          exact pyIndex_no_attrErr (hch ▸ h1)
        | ok a =>
          rw [h1] at hch
          exact pyIndex_no_attrErr hch

/-- C4, witness: the amended theorem applied to the empty sequence tree
(navigation raises IndexError, which is contained). -/
theorem C4_witness : ∃ msgs, extractMessages (PValue.list []) = .ok msgs :=
  C4_theorem.2.1 (PValue.list []) rfl (fun v hv => by simp [pyIndex] at hv)

-- --------------------------------------------------------------------------
-- C6: non-datetime Time entries
-- --------------------------------------------------------------------------

/-- C6, counterexample.  The claim says a present non-date-time Time entry
sorts as the minimum sentinel instant, i.e. to the earliest position.  The
sort key substitutes the sentinel only for FALSY values; a truthy text
Time is used as the key itself, its comparison against a date-time key
raises TypeError, the sort is abandoned, and the record stays at its
concatenation position (here: last, not first).  Only the rendering half
holds: it shows the "No Timestamp" sentinel. -/
theorem C6_counterexample :
    pySortMessages
        [PValue.dict [("Time", PValue.time 5)], PValue.dict [("Time", PValue.str "z")]]
      = [PValue.dict [("Time", PValue.time 5)], PValue.dict [("Time", PValue.str "z")]] ∧
    PValue.dict [("Time", PValue.str "z")] ≠ PValue.dict [("Time", PValue.time 5)] ∧
    isortE (fun a b => pyLtB a.2 b.2)
        [(PValue.dict [("Time", PValue.time 5)], PValue.time 5),
         (PValue.dict [("Time", PValue.str "z")], PValue.str "z")]
      = .error PyErr.typeError ∧
    timeStrOf [("Time", PValue.str "z")] = "No Timestamp" := by
  refine ⟨rfl, by simp, rfl, rfl⟩

/-- C6, amended: rendering treats every non-date-time Time entry as absent
("No Timestamp"); but the sort key replaces only absent or falsy Time
values by the minimum sentinel — a truthy non-date-time value becomes the
key itself, and its comparison with a date-time key raises TypeError,
which aborts the sort for that participant (the concatenated order is
kept). -/
theorem C6_theorem :
    (∀ d v, dictGet d "Time" = some v → isTimeB v = false →
       timeStrOf d = "No Timestamp") ∧
    (∀ d, dictGet d "Time" = Option.none →
       sortKeyE (.dict d) = .ok (.time pyDatetimeMin)) ∧
    (∀ d v, dictGet d "Time" = some v → truthy v = false →
       sortKeyE (.dict d) = .ok (.time pyDatetimeMin)) ∧
    (∀ d v, dictGet d "Time" = some v → truthy v = true →
       sortKeyE (.dict d) = .ok v) ∧
    (∀ s n, pyLtB (.str s) (.time n) = .error PyErr.typeError) ∧
    (∀ n s, pyLtB (.time n) (.str s) = .error PyErr.typeError) := by
  refine ⟨?_, ?_, ?_, ?_, fun s n => rfl, fun n s => rfl⟩
  · intro d v h hv
    unfold timeStrOf
    rw [h]
    cases v <;> first | rfl | (simp [isTimeB] at hv)
  · intro d h
    simp only [sortKeyE, h]
    rfl
  · intro d v h hv
    simp only [sortKeyE, h]
    simp [hv]
  · intro d v h hv
    simp only [sortKeyE, h]
    simp [hv]

/-- C6, witness: the amended theorem applied to an integer Time entry
(renders as the sentinel) and to an absent Time entry (keyed with the
minimum sentinel). -/
theorem C6_witness :
    timeStrOf [("Time", PValue.int 3)] = "No Timestamp" ∧
    sortKeyE (.dict []) = .ok (.time pyDatetimeMin) :=
  ⟨C6_theorem.1 [("Time", PValue.int 3)] (PValue.int 3) rfl rfl,
   C6_theorem.2.1 [] rfl⟩

-- --------------------------------------------------------------------------
-- C7: stable merge-and-sort
-- --------------------------------------------------------------------------

def msgWithTime (id : String) (t : Nat) : PValue :=
  .dict [("ID", .str id), ("Time", .time t)]

def msgNoTime (id : String) : PValue :=
  .dict [("ID", .str id)]

/-- C7: concatenating the two files' messages in file order and sorting is
a stable ascending sort by timestamp with the absent-timestamp record
first: timestamps sequence one = [t2, absent, t1], sequence two = [t3],
with t1 < t2 < t3, yields [absent, t1, t2, t3]. -/
theorem C7_theorem (t1 t2 t3 : Nat) (h12 : t1 < t2) (h23 : t2 < t3) :
    pySortMessages
        ([msgWithTime "a" t2, msgNoTime "b", msgWithTime "c" t1] ++ [msgWithTime "d" t3]) =
      [msgNoTime "b", msgWithTime "c" t1, msgWithTime "a" t2, msgWithTime "d" t3] := by
  have e1 : decide (t1 < t2) = true := decide_eq_true h12
  have e2 : decide (pyDatetimeMin < t2) = true :=
    decide_eq_true (Nat.lt_of_le_of_lt (Nat.zero_le t1) h12)
  have e3 : decide (t1 < pyDatetimeMin) = false :=
    decide_eq_false (Nat.not_lt_zero t1)
  have e4 : decide (t3 < pyDatetimeMin) = false :=
    decide_eq_false (Nat.not_lt_zero t3)
  have e5 : decide (t3 < t1) = false :=
    decide_eq_false (Nat.lt_asymm (Nat.lt_trans h12 h23))
  have e6 : decide (t3 < t2) = false :=
    decide_eq_false (Nat.lt_asymm h23)
  simp [pySortMessages, mapKeysE, sortKeyE, dictGet, truthy, isortE, isortAuxE,
    insertE, pyLtB, msgWithTime, msgNoTime, e1, e2, e3, e4, e5, e6]

/-- C7, witness: the theorem at the concrete instants 1 < 2 < 3. -/
theorem C7_witness :
    pySortMessages
        ([msgWithTime "a" 2, msgNoTime "b", msgWithTime "c" 1] ++ [msgWithTime "d" 3]) =
      [msgNoTime "b", msgWithTime "c" 1, msgWithTime "a" 2, msgWithTime "d" 3] :=
  C7_theorem 1 2 3 (by decide) (by decide)

-- --------------------------------------------------------------------------
-- C8: one output file per participant
-- --------------------------------------------------------------------------

theorem fsGet_fsSet (fs : FS) (p c : String) : fsGet (fsSet fs p c) p = some c := by
  simp [fsGet, fsSet, List.find?]

/-- C8, counterexample.  The claim says every participant gets exactly one
HTML file, including a participant all of whose files yield zero messages.
The source skips such a participant ("No messages found ... Skipping.")
before write_html_file is ever called, so no file is written. -/
theorem C8_counterexample :
    processUser "a/b:c" [[], []] "dest" [] = [] := rfl

/-- C8, amended: a participant whose files yield at least one message gets
exactly one HTML file, at the path formed from the display name with every
character of the illegal set replaced by an underscore plus the .html
suffix (a/b:c becomes a_b_c.html); a participant all of whose files yield
zero messages is skipped and no file is written for them. -/
theorem C8_theorem :
    sanitize_filename "a/b:c" = "a_b_c" ∧
    (∀ username fileMessages outputDir (fs : FS),
       fileMessages.foldl (fun acc l => acc ++ l) ([] : List PValue) = [] →
       processUser username fileMessages outputDir fs = fs) ∧
    (∀ username fileMessages outputDir (fs : FS),
       fileMessages.foldl (fun acc l => acc ++ l) ([] : List PValue) ≠ [] →
       ∃ content, processUser username fileMessages outputDir fs =
           fsSet fs (outputDir ++ "/" ++ sanitize_filename username ++ ".html") content ∧
         fsGet (processUser username fileMessages outputDir fs)
             (outputDir ++ "/" ++ sanitize_filename username ++ ".html") = some content) := by
  refine ⟨by decide, ?_, ?_⟩
  · intro username fileMessages outputDir fs h
    unfold processUser
    rw [h]
    rfl
  · intro username fileMessages outputDir fs h
    unfold processUser
    have hne : (fileMessages.foldl (fun acc l => acc ++ l) ([] : List PValue)).isEmpty = false := by
      cases hfe : fileMessages.foldl (fun acc l => acc ++ l) ([] : List PValue) with
      | nil => exact absurd hfe h
      | cons a l => rfl
    simp only [hne, Bool.false_eq_true, if_false]
    unfold writeHtmlFile
    cases hr : renderBody (pySortMessages (fileMessages.foldl (fun acc l => acc ++ l) [])) with
    | mk body oe =>
      cases oe with
      | none =>
        exact ⟨htmlHeader username ++ body ++ htmlFooter, rfl, fsGet_fsSet _ _ _⟩
      | some e =>
        exact ⟨htmlHeader username ++ body, rfl, fsGet_fsSet _ _ _⟩

/-- C8, witness: the amended theorem applied to a participant with one
one-message file. -/
theorem C8_witness :
    ∃ content, processUser "a/b:c" [[PValue.dict []]] "dest" [] =
        fsSet [] ("dest" ++ "/" ++ sanitize_filename "a/b:c" ++ ".html") content ∧
      fsGet (processUser "a/b:c" [[PValue.dict []]] "dest" [])
          ("dest" ++ "/" ++ sanitize_filename "a/b:c" ++ ".html") = some content :=
  C8_theorem.2.2 "a/b:c" [[PValue.dict []]] "dest" [] (by simp)

-- --------------------------------------------------------------------------
-- C9: one block per message, in order
-- --------------------------------------------------------------------------

theorem renderBody_cons_ok (m : PValue) (rest : List PValue) (s : String)
    (hm : renderMessage m = (s, Option.none)) :
    renderBody (m :: rest) = (s ++ (renderBody rest).1, (renderBody rest).2) := by
  rw [renderBody, hm]

theorem renderBody_cons_err (m : PValue) (rest : List PValue) (s : String) (e : PyErr)
    (hm : renderMessage m = (s, some e)) :
    renderBody (m :: rest) = (s, some e) := by
  rw [renderBody, hm]

/-- A message block produced without an exception starts with the message
div opener. -/
theorem renderMessage_ok_shape {m : PValue} {s : String}
    (hm : renderMessage m = (s, Option.none)) :
    ∃ rest2, s = "<div class=\"message\">" ++ rest2 := by
  cases m with
  | dict d =>
    cases hsn : senderNameOf d with
    | str s2 =>
      cases hc : renderContent (dictGet d "MessageText") with
      | mk c oe2 =>
        cases oe2 with
        | none =>
          have hrm : renderMessage (PValue.dict d) =
              ("<div class=\"message\">" ++ ("<div class=\"header\"><span class=\"sender\">"
                 ++ htmlEscape s2 ++ "</span> - " ++ timeStrOf d ++ "</div>"
                 ++ "<div class=\"content\">" ++ (c ++ "</div></div>")), Option.none) := by
            simp only [renderMessage, hsn, hc]
          rw [hrm] at hm
          exact ⟨_, (congrArg Prod.fst hm).symm⟩
        | some e2 =>
          exfalso
          have hrm : (renderMessage (PValue.dict d)).2 = some e2 := by
            simp only [renderMessage, hsn, hc]
          rw [hm] at hrm
          simp at hrm
    | none =>
      exfalso
      have hrm : (renderMessage (PValue.dict d)).2 = some PyErr.attributeError := by
        simp only [renderMessage, hsn]
      rw [hm] at hrm
      simp at hrm
    | bool b =>
      exfalso
      have hrm : (renderMessage (PValue.dict d)).2 = some PyErr.attributeError := by
        simp only [renderMessage, hsn]
      rw [hm] at hrm
      simp at hrm
    | int n =>
      exfalso
      have hrm : (renderMessage (PValue.dict d)).2 = some PyErr.attributeError := by
        simp only [renderMessage, hsn]
      rw [hm] at hrm
      simp at hrm
    | bytes bs =>
      exfalso
      have hrm : (renderMessage (PValue.dict d)).2 = some PyErr.attributeError := by
        simp only [renderMessage, hsn]
      rw [hm] at hrm
      simp at hrm
    | time n =>
      exfalso
      have hrm : (renderMessage (PValue.dict d)).2 = some PyErr.attributeError := by
        simp only [renderMessage, hsn]
      rw [hm] at hrm
      simp at hrm
    | list l =>
      exfalso
      have hrm : (renderMessage (PValue.dict d)).2 = some PyErr.attributeError := by
        simp only [renderMessage, hsn]
      rw [hm] at hrm
      simp at hrm
    | dict d2 =>
      exfalso
      have hrm : (renderMessage (PValue.dict d)).2 = some PyErr.attributeError := by
        simp only [renderMessage, hsn]
      rw [hm] at hrm
      simp at hrm
  | none => exact absurd (congrArg Prod.snd hm) (by simp [renderMessage])
  | bool b => exact absurd (congrArg Prod.snd hm) (by simp [renderMessage])
  | int n => exact absurd (congrArg Prod.snd hm) (by simp [renderMessage])
  | str s2 => exact absurd (congrArg Prod.snd hm) (by simp [renderMessage])
  | bytes bs => exact absurd (congrArg Prod.snd hm) (by simp [renderMessage])
  | time n => exact absurd (congrArg Prod.snd hm) (by simp [renderMessage])
  | list l => exact absurd (congrArg Prod.snd hm) (by simp [renderMessage])

/-- C9, counterexample.  The claim says EVERY input sequence renders with
exactly one message block per input message.  A sequence containing a
non-mapping record raises partway: the loop stops, the remaining messages
are dropped, and the document body written for this one-message input is
empty — it contains no message block at all. -/
theorem C9_counterexample :
    renderBody [PValue.str "junk"] = ("", some PyErr.attributeError) ∧
    ¬ ∃ pre post : String,
        ("" : String) = pre ++ "<div class=\"message\">" ++ post := by
  refine ⟨rfl, ?_⟩
  rintro ⟨pre, post, h⟩
  have hlen := congrArg String.length h
  have hq : ("<div class=\"message\">" : String).length = 21 := rfl
  simp [String.length_append, hq] at hlen
  omega

/-- C9, amended: whenever the message loop completes without an exception,
the document holds exactly one block per message, in input order (the body
is the concatenation of the per-message blocks), and every block starts
with the message div opener; in particular a mapping record with empty
text and no attachments still produces an (empty-content) block, so
message count and order are preserved; but a sequence on which an
exception fires mid-loop is truncated and later messages are dropped. -/
theorem C9_theorem (msgs : List PValue) (h : (renderBody msgs).2 = Option.none) :
    (renderBody msgs).1 = (msgs.map (fun m => (renderMessage m).1)).foldr (· ++ ·) "" ∧
    (∀ m ∈ msgs, (renderMessage m).2 = Option.none ∧
       ∃ rest, (renderMessage m).1 = "<div class=\"message\">" ++ rest) ∧
    renderMessage (.dict []) = (emptyContentBlock, Option.none) := by
  refine ⟨?_, ?_, rfl⟩
  · induction msgs with
    | nil => rfl
    | cons m rest ih =>
      cases hm : renderMessage m with
      | mk s oe =>
        cases oe with
        | some e => rw [renderBody_cons_err m rest s e hm] at h; simp at h
        | none =>
          rw [renderBody_cons_ok m rest s hm] at h ⊢
          simp only at h
          simp only [List.map_cons, List.foldr_cons, hm]
          rw [ih h]
  · induction msgs with
    | nil => intro m hm; cases hm
    | cons m rest ih =>
      intro m2 hm2
      cases hm : renderMessage m with
      | mk s oe =>
        cases oe with
        | some e => rw [renderBody_cons_err m rest s e hm] at h; simp at h
        | none =>
          have hrest : (renderBody rest).2 = Option.none := by
            rw [renderBody_cons_ok m rest s hm] at h
            simpa using h
          cases hm2 with
          | head =>
            refine ⟨by rw [hm], ?_⟩
            have := renderMessage_ok_shape hm
            rw [hm]
            exact this
          | tail _ hmem => exact ih hrest m2 hmem

/-- C9, witness: the amended theorem applied to a two-message sequence of
empty mapping records, which renders two identical empty-content blocks. -/
theorem C9_witness :
    (renderBody [PValue.dict [], PValue.dict []]).1 =
      ([PValue.dict [], PValue.dict []].map (fun m => (renderMessage m).1)).foldr (· ++ ·) "" ∧
    (∀ m ∈ [PValue.dict [], PValue.dict []], (renderMessage m).2 = Option.none ∧
       ∃ rest, (renderMessage m).1 = "<div class=\"message\">" ++ rest) ∧
    renderMessage (.dict []) = (emptyContentBlock, Option.none) :=
  C9_theorem [PValue.dict [], PValue.dict []] rfl

-- --------------------------------------------------------------------------
-- C10: non-atomic rendering
-- --------------------------------------------------------------------------

/-- C10: when an exception interrupts the message loop after the output
file was opened, the catch clause only logs — the with-block has already
closed the file, so a truncated document holding the preamble and every
block written before the failure remains on disk at the output path (the
footer is missing, so it differs from any completed document), and the
filesystem is not left unchanged. -/
theorem C10_theorem (username : String) (msgs : List PValue) (outputDir : String)
    (fs : FS) (e : PyErr)
    (h : (renderBody msgs).2 = some e)
    (hfresh : fsGet fs (outputDir ++ "/" ++ sanitize_filename username ++ ".html") = Option.none) :
    fsGet (writeHtmlFile username msgs outputDir fs)
        (outputDir ++ "/" ++ sanitize_filename username ++ ".html")
      = some (htmlHeader username ++ (renderBody msgs).1) ∧
    writeHtmlFile username msgs outputDir fs ≠ fs ∧
    htmlHeader username ++ (renderBody msgs).1
      ≠ htmlHeader username ++ (renderBody msgs).1 ++ htmlFooter := by
  have hmain : fsGet (writeHtmlFile username msgs outputDir fs)
      (outputDir ++ "/" ++ sanitize_filename username ++ ".html")
        = some (htmlHeader username ++ (renderBody msgs).1) := by
    unfold writeHtmlFile
    cases hr : renderBody msgs with
    | mk body oe =>
      cases oe with
      | none => rw [hr] at h; simp at h
      | some e2 =>
        simp only
        exact fsGet_fsSet _ _ _
  refine ⟨hmain, ?_, ?_⟩
  · intro heq
    rw [heq] at hmain
    rw [hfresh] at hmain
    exact Option.noConfusion hmain
  · intro heq
    have hlen := congrArg String.length heq
    simp only [String.length_append] at hlen
    have hf : 0 < htmlFooter.length := by decide
    omega

/-- C10, witness: the theorem applied to a one-message input whose record
is plain text, so the loop raises at its first attribute access; the
partial file holds the preamble alone. -/
theorem C10_witness :
    fsGet (writeHtmlFile "user" [PValue.str "junk"] "out" [])
        ("out" ++ "/" ++ sanitize_filename "user" ++ ".html")
      = some (htmlHeader "user" ++ (renderBody [PValue.str "junk"]).1) ∧
    writeHtmlFile "user" [PValue.str "junk"] "out" [] ≠ [] ∧
    htmlHeader "user" ++ (renderBody [PValue.str "junk"]).1
      ≠ htmlHeader "user" ++ (renderBody [PValue.str "junk"]).1 ++ htmlFooter :=
  C10_theorem "user" [PValue.str "junk"] "out" [] PyErr.attributeError rfl rfl
